import Mathlib

/-!
Shallow embedding of the Pushwoosh web-push orchestrator (src/src/Pushwoosh.ts).

The model follows the source file closely: persisted key-value state is the
`Store` structure, the browser localStorage registration flag and the event /
backend-call traces live in `World`, external facts (permission, driver
parameters, platform) live in `Env`, and transport or backend failures are an
explicit `Oracle` of rejection flags.  JavaScript objects that the source
compares with JSON.stringify are modelled as ordered association lists
together with an order-sensitive serializer `jsonStringify`.
-/

namespace PW

/-- Permission states returned by the driver (denied, prompt, granted, plus an
unrecognized value for the default switch branch). -/
inductive Permission where
  | denied
  | prompt
  | granted
  | unknownPerm
deriving DecidableEq, Repr

/-- Persisted device registration status (KEY_DEVICE_REGISTRATION_STATUS). -/
inductive RegStatus where
  | registered
  | unregistered
deriving DecidableEq, Repr

/-- Lifecycle events emitted through the event emitter. -/
inductive Ev where
  | permissionDenied
  | permissionPrompt
  | permissionGranted
  | register
  | subscribeEv
  | unsubscribeEv
  | ready
  | delayed (t : String)
deriving DecidableEq, Repr

/-- Transport and backend calls issued by the orchestrator, in issue order. -/
inductive Call where
  | driverIsSubscribed
  | askSubscribe (alreadyRegistered : Bool)
  | driverUnsubscribe
  | registerDevice
  | setTags (payload : List (String × Option String))
  | registerUser
  | unregisterDevice
  | openSession
  | getTags
  | postEvent (name : String)
deriving DecidableEq, Repr

/-- Errors of the source taxonomy: fatal config and platform errors, the
programming-contract NotInitialized error, a TypeError for reading a field of
an undefined value, and a generic transport/backend rejection. -/
inductive Err where
  | configError
  | unsupportedPlatform
  | notInitialized
  | typeError
  | backendErr
deriving DecidableEq, Repr

/-- Normalized init parameters as persisted under KEY_INIT_PARAMS: the fields
of the params object that the diffing at lines 270-274 reads. -/
structure InitParams where
  applicationCode : String
  userId : Option String
  tags : List (String × String)
  autoSubscribe : Bool
deriving DecidableEq, Repr

/-- Caller-supplied InitConfig before normalization (optional fields are the
ones the source defaults or deletes). -/
structure InitConfig where
  applicationCode : String
  userId : Option String
  tags : List (String × String)
  autoSubscribe : Option Bool
  safariWebsitePushID : Option String
deriving DecidableEq, Repr

/-- API facade parameters assembled by initApi (lines 361-371); only the
fields the claims mention are kept. -/
structure ApiParams where
  driverParams : List (String × String)
  applicationCode : String
  userId : Option String
deriving DecidableEq, Repr

/-- Persistent key-value store (IndexedDB keyValue): one field per key the
orchestrator reads or writes. -/
structure Store where
  apiParams : Option (List (String × String))
  initParams : Option InitParams
  sdkVersion : Option String
  commEnabled : Option Int
  dataRemoved : Option Int
  lastSentAppOpen : Option Int
  safariPrevPermission : Option Permission
  delayedEvent : Option String
deriving DecidableEq, Repr

/-- Whole-run state: the store, the localStorage registration flag, the built
API facade (none before initApi runs), the emitted events, the issued calls
and the ready flag. -/
structure World where
  store : Store
  regStatus : Option RegStatus
  api : Option ApiParams
  events : List Ev
  calls : List Call
  ready : Bool
deriving DecidableEq, Repr

/-- External facts fixed for one startup: live permission, platform flags,
driver-reported parameters and subscription state, the current SDK version,
and the clock.  The driver is assumed to report the same values on repeated
queries within the run. -/
structure Env where
  permission : Permission
  isSafari : Bool
  canUseServiceWorkers : Bool
  driverApiParams : List (String × String)
  driverIsSubscribed : Bool
  hasIsNeedUnsubscribe : Bool
  isNeedUnsubscribeResult : Bool
  sdkVersion : String
  hwidPresent : Bool
  now : Int
  language : String
  browserVersion : String
deriving DecidableEq, Repr

/-- Rejection oracle: one flag per fallible transport or backend call; true
means every issue of that call rejects. -/
structure Oracle where
  failIsSubscribed : Bool := false
  failAskSubscribe : Bool := false
  failDriverUnsubscribe : Bool := false
  failUnregisterDevice : Bool := false
  failRegisterDevice : Bool := false
  failSetTags : Bool := false
  failRegisterUser : Bool := false
  failOpenSession : Bool := false
  failGetTags : Bool := false
  failPostEvent : Bool := false
deriving DecidableEq, Repr

/-- Oracle on which every call succeeds. -/
def cleanOracle : Oracle := {}

/-- Per-startup diff flags (the four private fields at lines 70-73). -/
structure Flags where
  needResubscribe : Bool
  needRegisterUser : Bool
  needSetTags : Bool
  needRegisterDevice : Bool
deriving DecidableEq, Repr

/-- Append an issued call to the trace. -/
def pushCall (w : World) (c : Call) : World :=
  { w with calls := w.calls ++ [c] }

/-- Append an emitted event to the trace. -/
def pushEvent (w : World) (v : Ev) : World :=
  { w with events := w.events ++ [v] }

/-- Truthiness of an optional stored number (undefined is falsy, 0 is falsy). -/
def truthyOptInt : Option Int → Bool
  | none => false
  | some v => v != 0

/-- Truthiness of an optional string (undefined and the empty string are falsy). -/
def truthyOptStr : Option String → Bool
  | none => false
  | some s => s != ""

/-- Source line 466: registration status equals the registered constant. -/
def isDeviceRegistered (w : World) : Bool :=
  w.regStatus == some RegStatus.registered

/-- Source line 470: registration status equals the unregistered constant. -/
def isDeviceUnregistered (w : World) : Bool :=
  w.regStatus == some RegStatus.unregistered

/-- Source lines 486-489: communication is enabled unless the stored value is
exactly 0; the model exposes the disabled test. -/
def commDisabled (w : World) : Bool :=
  w.store.commEnabled == some 0

/-- Join a list of strings with commas, as in a JSON array or object body. -/
def joinComma : List String → String
  | [] => ""
  | [s] => s
  | s :: rest => s ++ "," ++ joinComma rest

/-- Quote a string as JSON.stringify quotes object keys and string values. -/
def jsonQuote (s : String) : String := "\"" ++ s ++ "\""

/-- Order-sensitive JSON serialization of a string-to-string object, as
JSON.stringify renders it (keys in insertion order). -/
def jsonStringify (l : List (String × String)) : String :=
  "\x7b" ++ joinComma (l.map (fun p => jsonQuote p.1 ++ ":" ++ jsonQuote p.2)) ++ "\x7d"

/-- JavaScript object property assignment on an insertion-ordered object: an
existing key keeps its position and gets the new value; a new key is appended. -/
def objInsert : List (String × String) → String → String → List (String × String)
  | [], k, v => [(k, v)]
  | (k₁, v₁) :: rest, k, v =>
    if k₁ == k then (k, v) :: rest else (k₁, v₁) :: objInsert rest k v

/-- JavaScript object spread merge: assign every pair of the second object
onto the first, left to right. -/
def objMerge (base l : List (String × String)) : List (String × String) :=
  l.foldl (fun m p => objInsert m p.1 p.2) base

/-- Tags object built at lines 244-248: Language first (defaulted to en),
then the caller tags spread on top, then the Device Model entry. -/
def buildTags (e : Env) (userTags : List (String × String)) : List (String × String) :=
  objInsert
    (objMerge [(("Language"), if e.language == "" then ("en") else e.language)] userTags)
    ("Device Model") e.browserVersion

/-- Params normalization of init (lines 238-265): defaults applied, tags
built, and a userId equal to the default placeholder deleted. -/
def normalizeParams (duid : String) (e : Env) (cfg : InitConfig) : InitParams :=
  { applicationCode := cfg.applicationCode
    userId := if cfg.userId == some duid then none else cfg.userId
    tags := buildTags e cfg.tags
    autoSubscribe := cfg.autoSubscribe.getD true }

/-- Line 271: a truthy previously stored applicationCode differing from the
current one. -/
def needResubscribeOf (prev : Option InitParams) (appCode : String) : Bool :=
  match prev with
  | none => false
  | some p => truthyOptStr (some p.applicationCode) && (p.applicationCode != appCode)

/-- Line 272: previous and current userId both truthy and different. -/
def needRegisterUserOf (prevUserId curUserId : Option String) : Bool :=
  truthyOptStr prevUserId && truthyOptStr curUserId && (prevUserId != curUserId)

/-- Line 273: previous tags present and the JSON serializations of previous
and current tags differ (a key-order-sensitive comparison). -/
def needSetTagsOf (prev : Option InitParams) (curTags : List (String × String)) : Bool :=
  match prev with
  | none => false
  | some p => jsonStringify p.tags != jsonStringify curTags

/-- Line 375: JSON serializations of the freshly queried driver parameters
and the stored ones differ (absent stored value read as the empty object). -/
def needRegisterDeviceOf (driverParams : List (String × String))
    (savedApiParams : Option (List (String × String))) : Bool :=
  jsonStringify driverParams != jsonStringify (savedApiParams.getD [])

/-- Line 517: the current SDK version differs from the stored one. -/
def isNewVersionOf (st : Store) (e : Env) : Bool :=
  !(st.sdkVersion == some e.sdkVersion)

/-- Deep structural equality of two tag mappings as JSON objects: every key
has the same first-bound value on both sides.  Modelled from the spec: the
spec asks for explicit structural comparison of key-value pairs, insensitive
to key order. -/
def lookupTag (l : List (String × String)) (k : String) : Option String :=
  (l.find? (fun p => p.1 == k)).map Prod.snd

/-- Tag mappings agree as finite maps, regardless of key order. -/
def tagsDeepEqual (a b : List (String × String)) : Bool :=
  a.all (fun p => lookupTag b p.1 == lookupTag a p.1)
    && b.all (fun p => lookupTag a p.1 == lookupTag b p.1)

/-- API facade parameters assembled at lines 361-371: driver parameters plus
the application code, with a userId field only when params.userId is truthy. -/
def mkApiParams (p : InitParams) (e : Env) : ApiParams :=
  { driverParams := e.driverApiParams
    applicationCode := p.applicationCode
    userId :=
      match p.userId with
      | none => none
      | some u => if u == "" then none else some u }

/-- Model of initApi (lines 354-383): computes the needRegisterDevice flag by
comparing serializations, extends KEY_API_PARAMS by object merge and replaces
KEY_INIT_PARAMS with the complete params record, then builds the API facade.
Returns the updated world and the computed flag. -/
def initApiFn (p : InitParams) (e : Env) (w : World) : World × Bool :=
  let saved := w.store.apiParams
  let needRegDev := needRegisterDeviceOf e.driverApiParams saved
  let st := w.store
  let st₁ :=
    { st with
      apiParams := some (objMerge (saved.getD []) e.driverApiParams)
      initParams := some p }
  ({ w with store := st₁, api := some (mkApiParams p e) }, needRegDev)

/-- Hourly throttle of the appOpen call.  Modelled from the spec: the
constants module is outside src, the spec fixes the period at one hour. -/
def periodSendAppOpen : Int := 3600000

/-- Model of callApplicationOpen (lines 604-618): on Safari without a
hardware id it does nothing; otherwise when forced or when the hour elapsed
it records the send time and issues openSession.  Reading applicationOpen off
an absent API facade raises a TypeError; a rejected openSession propagates. -/
def callApplicationOpenFn (force : Bool) (e : Env) (o : Oracle) (w : World) :
    World × Option Err :=
  let lastSent : Int := w.store.lastSentAppOpen.getD 0
  if e.isSafari && !e.hwidPresent then (w, none)
  else if force || (e.now - lastSent > periodSendAppOpen) then
    let w₁ := { w with store := { w.store with lastSentAppOpen := some e.now } }
    if w₁.api.isNone then (w₁, some Err.typeError)
    else
      let w₂ := pushCall w₁ Call.openSession
      if o.failOpenSession then (w₂, some Err.backendErr) else (w₂, none)
  else (w, none)

/-- Try-block of unsubscribe (lines 449-455): driver unsubscribe, then
backend de-registration, then the unsubscribe event when notify is set; any
rejection escapes to the catch. -/
def unsubscribeBody (notify : Bool) (o : Oracle) (w : World) : World × Option Err :=
  let w₁ := pushCall w Call.driverUnsubscribe
  if o.failDriverUnsubscribe then (w₁, some Err.backendErr)
  else if w₁.api.isNone then (w₁, some Err.typeError)
  else
    let w₂ := pushCall w₁ Call.unregisterDevice
    if o.failUnregisterDevice then (w₂, some Err.backendErr)
    else if notify then (pushEvent w₂ Ev.unsubscribeEv, none)
    else (w₂, none)

/-- Public unsubscribe (lines 448-459): the catch logs and swallows every
error of the body. -/
def unsubscribeOp (notify : Bool) (o : Oracle) (w : World) : World × Option Err :=
  ((unsubscribeBody notify o w).1, none)

/-- Installation operations pushed into the installationMethods array
(lines 508-539): a store write of the SDK version, or one of the three
backend calls. -/
inductive InstallOp where
  | setSdk (v : String)
  | regDevice
  | tags (payload : List (String × Option String))
  | regUser
deriving DecidableEq, Repr

/-- Values awaited by Promise.all: either a pending promise of an
installation operation, or a plain (non-thenable) array, which Promise.all
treats as an already settled value without looking inside. -/
inductive PromItem where
  | call : InstallOp → PromItem
  | arr : List PromItem → PromItem

/-- Operations a Promise.all over the given items actually awaits to
settlement: promises are awaited, plain arrays are not. -/
def promiseAllAwaits : List PromItem → List InstallOp
  | [] => []
  | PromItem.call c :: rest => c :: promiseAllAwaits rest
  | PromItem.arr _ :: rest => promiseAllAwaits rest

/-- Whether a Promise.all over the given items rejects: only a rejection of
an awaited promise is observed; rejections inside a plain array element are
not. -/
def promiseAllRejects (fails : InstallOp → Bool) : List PromItem → Bool
  | [] => false
  | PromItem.call c :: rest => fails c || promiseAllRejects fails rest
  | PromItem.arr _ :: rest => promiseAllRejects fails rest

/-- Which installation operations reject under the oracle (the store write of
the SDK version is not a backend call and does not reject). -/
def opFails (o : Oracle) : InstallOp → Bool
  | InstallOp.setSdk _ => false
  | InstallOp.regDevice => o.failRegisterDevice
  | InstallOp.tags _ => o.failSetTags
  | InstallOp.regUser => o.failRegisterUser

/-- Tags payload of the install setTags call (line 533): the stored init
params tags spread into a fresh object. -/
def tagsPayloadOf (p : InitParams) : List (String × Option String) :=
  p.tags.map (fun q => (q.1, some q.2))

/-- Installation methods selected at lines 522-539, in push order. -/
def installationMethodsOf (fl : Flags) (force : Option Bool) (e : Env) (st : Store) :
    List InstallOp :=
  let isNewVersion := isNewVersionOf st e
  let forceFlag := force.getD false || isNewVersion
  (if isNewVersion then [InstallOp.setSdk e.sdkVersion] else []) ++
  (if fl.needRegisterDevice || forceFlag then [InstallOp.regDevice] else []) ++
  (if fl.needSetTags || forceFlag then
    (match st.initParams with
     | some p => [InstallOp.tags (tagsPayloadOf p)]
     | none => [])
   else []) ++
  (if fl.needRegisterUser || forceFlag then [InstallOp.regUser] else [])

/-- Issue one installation operation: the version write updates the store,
the three backend operations are appended to the call trace. -/
def issueOp (w : World) : InstallOp → World
  | InstallOp.setSdk v => { w with store := { w.store with sdkVersion := some v } }
  | InstallOp.regDevice => pushCall w Call.registerDevice
  | InstallOp.tags pl => pushCall w (Call.setTags pl)
  | InstallOp.regUser => pushCall w Call.registerUser

/-- Issue a list of installation operations in order. -/
def issueOps (w : World) (l : List InstallOp) : World := l.foldl issueOp w

/-- Model of installDevice (lines 496-548): NotInitialized without an API
facade; silent return when communication is disabled; otherwise the selected
methods are issued (started) and the fan-in is the literal source construct
Promise.all over the single-element array wrapping the methods list, after
which the register event is emitted when device registration was selected.
Reading tags off absent stored init params while the methods array is being
built raises a TypeError after the earlier pushes already started. -/
def installDeviceFn (fl : Flags) (force : Option Bool) (e : Env) (o : Oracle)
    (w : World) : World × Option Err :=
  if w.api.isNone then (w, some Err.notInitialized)
  else if commDisabled w then (w, none)
  else
    let st := w.store
    let isNewVersion := isNewVersionOf st e
    let forceFlag := force.getD false || isNewVersion
    if (fl.needSetTags || forceFlag) && st.initParams.isNone then
      let w₁ := issueOps w (if isNewVersion then [InstallOp.setSdk e.sdkVersion] else [])
      let w₂ := issueOps w₁
        (if fl.needRegisterDevice || forceFlag then [InstallOp.regDevice] else [])
      (w₂, some Err.typeError)
    else
      let methods := installationMethodsOf fl force e st
      let w₁ := issueOps w methods
      if promiseAllRejects (opFails o) [PromItem.arr (methods.map PromItem.call)] then
        (w₁, some Err.backendErr)
      else
        let w₂ :=
          if fl.needRegisterDevice || forceFlag then pushEvent w₁ Ev.register else w₁
        (w₂, none)

/-- Model of needForcedOpen (lines 624-634): Safari only; stores the current
permission as the previous snapshot and reports whether permission became
granted since process start or since the stored snapshot. -/
def needForcedOpenFn (e : Env) (permInit : Permission) (w : World) : World × Bool :=
  if !e.isSafari then (w, false)
  else
    let prev := w.store.safariPrevPermission
    let w₁ := { w with store := { w.store with safariPrevPermission := some e.permission } }
    let c₁ := !(permInit == Permission.granted) && (e.permission == Permission.granted)
    let c₂ := !(prev == some Permission.granted) && (e.permission == Permission.granted)
    (w₁, c₁ || c₂)

/-- Model of registerDuringSubscribe (lines 424-431): query subscription,
on Safari possibly force a session open, then run installDevice with the
queried subscription state as the force parameter. -/
def registerDuringSubscribeFn (fl : Flags) (permInit : Permission) (e : Env)
    (o : Oracle) (w : World) : World × Option Err :=
  let w₁ := pushCall w Call.driverIsSubscribed
  if o.failIsSubscribed then (w₁, some Err.backendErr)
  else
    let subscribed := e.driverIsSubscribed
    let r :=
      if e.isSafari then
        let r₀ := needForcedOpenFn e permInit w₁
        callApplicationOpenFn r₀.2 e o r₀.1
      else (w₁, none)
    match r.2 with
    | some er => (r.1, some er)
    | none => installDeviceFn fl (some subscribed) e o r.1

/-- Try-block of subscribe (lines 398-414): query subscription, ask the
platform for consent, install when the device is not marked registered, and
emit the subscribe event when a previously unsubscribed device reports
subscribed afterwards. -/
def subscribeBody (fl : Flags) (permInit : Permission) (e : Env) (o : Oracle)
    (w : World) : World × Option Err :=
  let w₁ := pushCall w Call.driverIsSubscribed
  if o.failIsSubscribed then (w₁, some Err.backendErr)
  else
    let subscribed := e.driverIsSubscribed
    let isReg := isDeviceRegistered w₁
    let w₂ := pushCall w₁ (Call.askSubscribe isReg)
    if o.failAskSubscribe then (w₂, some Err.backendErr)
    else
      let r :=
        if !isReg then registerDuringSubscribeFn fl permInit e o w₂ else (w₂, none)
      match r.2 with
      | some er => (r.1, some er)
      | none =>
        if subscribed then (r.1, none)
        else
          let w₄ := pushCall r.1 Call.driverIsSubscribed
          if o.failIsSubscribed then (w₄, some Err.backendErr)
          else if e.driverIsSubscribed then (pushEvent w₄ Ev.subscribeEv, none)
          else (w₄, none)

/-- Public subscribe (lines 390-418): the communication check precedes the
try-block and returns silently when disabled; the catch logs and swallows
every error of the body. -/
def subscribeOp (fl : Flags) (permInit : Permission) (e : Env) (o : Oracle)
    (w : World) : World × Option Err :=
  if commDisabled w then (w, none)
  else ((subscribeBody fl permInit e o w).1, none)

/-- Permission switch of defaultProcess (lines 665-695). -/
def permissionBranchFn (p : InitParams) (fl : Flags) (permInit : Permission)
    (e : Env) (o : Oracle) (w : World) : World :=
  match permInit with
  | Permission.denied =>
    let wA := pushEvent w Ev.permissionDenied
    let wB :=
      if !e.isSafari && isDeviceRegistered wA then (unsubscribeOp true o wA).1 else wA
    { wB with regStatus := none }
  | Permission.prompt =>
    let wA :=
      if !e.isSafari && isDeviceRegistered w then (unsubscribeOp true o w).1 else w
    let wB := { wA with regStatus := none }
    if p.autoSubscribe then (subscribeOp fl permInit e o wB).1
    else pushEvent wB Ev.permissionPrompt
  | Permission.granted =>
    let wA := pushEvent w Ev.permissionGranted
    if (!e.isSafari && !isDeviceRegistered wA && !isDeviceUnregistered wA)
        || fl.needResubscribe then
      (subscribeOp fl permInit e o wA).1
    else wA
  | Permission.unknownPerm => w

/-- Tail of defaultProcess after the permission switch (lines 697-714): the
second initApi with a recomputed needRegisterDevice flag, the unconditional
install, the forced open re-check, the ready event with the ready flag, and
the delayed event replay. -/
def finishProcessFn (p : InitParams) (fl : Flags) (permInit : Permission) (e : Env)
    (o : Oracle) (w₅ : World) : World × Option Err :=
  let r₆ := initApiFn p e w₅
  let fl₂ := { fl with needRegisterDevice := r₆.2 }
  let r₇ := installDeviceFn fl₂ none e o r₆.1
  match r₇.2 with
  | some er => (r₇.1, some er)
  | none =>
    let r₈ := needForcedOpenFn e permInit r₇.1
    let r₉ := if r₈.2 then callApplicationOpenFn true e o r₈.1 else (r₈.1, none)
    match r₉.2 with
    | some er => (r₉.1, some er)
    | none =>
      let w₁₀ := { pushEvent r₉.1 Ev.ready with ready := true }
      match w₁₀.store.delayedEvent with
      | some t =>
        ({ pushEvent w₁₀ (Ev.delayed t) with
           store := { w₁₀.store with delayedEvent := none } }, none)
      | none => (w₁₀, none)

/-- Head of defaultProcess before the tombstone check (lines 643-655):
initApi with the recomputed needRegisterDevice flag, the throttled appOpen,
and the two silent unsubscribe checks.  Returns the reached world, the
updated flags, and the error of a rejected appOpen. -/
def preBranchFn (p : InitParams) (fl₀ : Flags) (e : Env) (o : Oracle)
    (w₀ : World) : (World × Flags) × Option Err :=
  let r₁ := initApiFn p e w₀
  let fl := { fl₀ with needRegisterDevice := r₁.2 }
  let r₂ := callApplicationOpenFn false e o r₁.1
  match r₂.2 with
  | some er => ((r₂.1, fl), some er)
  | none =>
    let w₃ :=
      if e.hasIsNeedUnsubscribe && e.isNeedUnsubscribeResult && isDeviceRegistered r₂.1
      then (unsubscribeOp false o r₂.1).1 else r₂.1
    let w₄ := if fl.needResubscribe then (unsubscribeOp false o w₃).1 else w₃
    ((w₄, fl), none)

/-- Model of defaultProcess (lines 642-715): the pre-branch head, the
device-data-removed dead end, the permission switch, and the finishing
tail. -/
def defaultProcessFn (p : InitParams) (fl₀ : Flags) (e : Env) (o : Oracle)
    (w₀ : World) : World × Option Err :=
  let permInit := e.permission
  let pr := preBranchFn p fl₀ e o w₀
  match pr.2 with
  | some er => (pr.1.1, some er)
  | none =>
    let w₄ := pr.1.1
    let fl := pr.1.2
    if truthyOptInt w₄.store.dataRemoved then (w₄, none)
    else
      let w₅ := permissionBranchFn p fl permInit e o w₄
      finishProcessFn p fl permInit e o w₅

/-- Model of init (lines 223-338): reject on a missing application code
before any effect; normalize the params; compute the three diff flags from
the previously persisted init params; fail fatally when no driver variant is
usable; then run defaultProcess inside the catch that logs its failures. -/
def initFn (duid : String) (cfg : InitConfig) (e : Env) (o : Oracle) (w : World) :
    World × Option Err :=
  if cfg.applicationCode == "" then (w, some Err.configError)
  else
    let p := normalizeParams duid e cfg
    let fl₀ : Flags :=
      { needResubscribe := needResubscribeOf w.store.initParams cfg.applicationCode
        needRegisterUser :=
          needRegisterUserOf (w.store.initParams.bind (fun q => q.userId)) p.userId
        needSetTags := needSetTagsOf w.store.initParams p.tags
        needRegisterDevice := false }
    if !e.canUseServiceWorkers && !(e.isSafari && truthyOptStr cfg.safariWebsitePushID)
    then (w, some Err.unsupportedPlatform)
    else ((defaultProcessFn p fl₀ e o w).1, none)

/-- Name of the GDPR deletion event.  Modelled from the spec: the constants
module is outside src; the spec only requires that the deletion event is
posted. -/
def gdprDeleteName : String := "GDPRDelete"

/-- Model of removeAllDeviceData (lines 578-595): NotInitialized without an
API facade; fetch the tags, post the deletion event, clear every existing tag
key to null and unregister the device concurrently (a properly spread
Promise.all), then persist the tombstone flag as 1. -/
def removeAllDeviceDataFn (tagsResult : List (String × String)) (o : Oracle)
    (w : World) : World × Option Err :=
  if w.api.isNone then (w, some Err.notInitialized)
  else
    let w₁ := pushCall w Call.getTags
    if o.failGetTags then (w₁, some Err.backendErr)
    else
      let clearTags : List (String × Option String) :=
        tagsResult.map (fun q => (q.1, none))
      let w₂ := pushCall w₁ (Call.postEvent gdprDeleteName)
      if o.failPostEvent then (w₂, some Err.backendErr)
      else
        let w₃ := pushCall (pushCall w₂ (Call.setTags clearTags)) Call.unregisterDevice
        if o.failSetTags || o.failUnregisterDevice then (w₃, some Err.backendErr)
        else ({ w₃ with store := { w₃.store with dataRemoved := some 1 } }, none)

/-- Fresh world over a given store, registration flag and API facade: empty
event and call traces, ready not yet set. -/
def mkWorld (st : Store) (reg : Option RegStatus) (api : Option ApiParams) : World :=
  { store := st, regStatus := reg, api := api, events := [], calls := [], ready := false }

/-- Number of times a given call occurs in the issued-call trace. -/
def countCall (w : World) (c : Call) : Nat :=
  w.calls.countP (fun x => x == c)

/-- Store with every key absent, as on a first run. -/
def emptyStore : Store :=
  { apiParams := none, initParams := none, sdkVersion := none, commEnabled := none
    dataRemoved := none, lastSentAppOpen := none, safariPrevPermission := none
    delayedEvent := none }

/-- Concrete environment used by witnesses: a service-worker platform with
permission granted. -/
def envA : Env :=
  { permission := Permission.granted, isSafari := false, canUseServiceWorkers := true
    driverApiParams := [(("hwid"), ("h1"))], driverIsSubscribed := false
    hasIsNeedUnsubscribe := false, isNeedUnsubscribeResult := false
    sdkVersion := "3.5.22", hwidPresent := true, now := 0, language := "en"
    browserVersion := "Chrome 70" }

/-- Concrete normalized init params used by witnesses. -/
def pA : InitParams :=
  { applicationCode := "app1", userId := none
    tags := [(("Language"), ("en"))], autoSubscribe := true }

/-- Concrete API facade used by witnesses. -/
def apiA : ApiParams := mkApiParams pA envA

/-- Concrete caller config used by witnesses. -/
def cfgA : InitConfig :=
  { applicationCode := "app1", userId := some "u1"
    tags := [(("Color"), ("red"))], autoSubscribe := none
    safariWebsitePushID := none }

/-- Flags with only needRegisterDevice selected, as in the C1 failing input. -/
def flagsRegDev : Flags :=
  { needResubscribe := false, needRegisterUser := false
    needSetTags := false, needRegisterDevice := true }

/-- Store state for the C1 failing input: init params and the current SDK
version already persisted, so no force flag applies. -/
def stC1 : Store :=
  { emptyStore with
      initParams := some pA
      apiParams := some [(("hwid"), ("h1"))]
      sdkVersion := some "3.5.22" }

/-- Oracle for the C1 failing input: the registerDevice backend call
rejects. -/
def oC1 : Oracle := { failRegisterDevice := true }

/-- Environment for the C5 counterexample and the C6 witness: a Safari
transport with permission denied. -/
def eC5 : Env :=
  { envA with
      permission := Permission.denied, isSafari := true
      canUseServiceWorkers := false }

lemma initApiFn_events (p : InitParams) (e : Env) (w : World) :
    ((initApiFn p e w).1).events = w.events := rfl

lemma initApiFn_calls (p : InitParams) (e : Env) (w : World) :
    ((initApiFn p e w).1).calls = w.calls := rfl

lemma initApiFn_ready (p : InitParams) (e : Env) (w : World) :
    ((initApiFn p e w).1).ready = w.ready := rfl

lemma initApiFn_regStatus (p : InitParams) (e : Env) (w : World) :
    ((initApiFn p e w).1).regStatus = w.regStatus := rfl

lemma initApiFn_dataRemoved (p : InitParams) (e : Env) (w : World) :
    ((initApiFn p e w).1).store.dataRemoved = w.store.dataRemoved := rfl

lemma initApiFn_api (p : InitParams) (e : Env) (w : World) :
    ((initApiFn p e w).1).api = some (mkApiParams p e) := rfl

lemma countCall_pushCall (w : World) (c c' : Call) :
    countCall (pushCall w c) c' = countCall w c' + (if (c == c') = true then 1 else 0) := by
  simp [countCall, pushCall, List.countP_append, List.countP_cons]

lemma countCall_pushEvent (w : World) (v : Ev) (c : Call) :
    countCall (pushEvent w v) c = countCall w c := rfl

lemma callAppOpen_events (f : Bool) (e : Env) (o : Oracle) (w : World) :
    ((callApplicationOpenFn f e o w).1).events = w.events := by
  simp only [callApplicationOpenFn, pushCall]
  repeat' split
  all_goals rfl

lemma callAppOpen_ready (f : Bool) (e : Env) (o : Oracle) (w : World) :
    ((callApplicationOpenFn f e o w).1).ready = w.ready := by
  simp only [callApplicationOpenFn, pushCall]
  repeat' split
  all_goals rfl

lemma callAppOpen_regStatus (f : Bool) (e : Env) (o : Oracle) (w : World) :
    ((callApplicationOpenFn f e o w).1).regStatus = w.regStatus := by
  simp only [callApplicationOpenFn, pushCall]
  repeat' split
  all_goals rfl

lemma callAppOpen_dataRemoved (f : Bool) (e : Env) (o : Oracle) (w : World) :
    ((callApplicationOpenFn f e o w).1).store.dataRemoved = w.store.dataRemoved := by
  simp only [callApplicationOpenFn, pushCall]
  repeat' split
  all_goals rfl

lemma callAppOpen_api (f : Bool) (e : Env) (o : Oracle) (w : World) :
    ((callApplicationOpenFn f e o w).1).api = w.api := by
  simp only [callApplicationOpenFn, pushCall]
  repeat' split
  all_goals rfl

lemma callAppOpen_calls_cases (f : Bool) (e : Env) (o : Oracle) (w : World) :
    ((callApplicationOpenFn f e o w).1).calls = w.calls ∨
    ((callApplicationOpenFn f e o w).1).calls = w.calls ++ [Call.openSession] := by
  simp only [callApplicationOpenFn, pushCall]
  repeat' split
  all_goals simp

lemma callAppOpen_count_unsub (f : Bool) (e : Env) (o : Oracle) (w : World) :
    countCall (callApplicationOpenFn f e o w).1 Call.driverUnsubscribe
      = countCall w Call.driverUnsubscribe := by
  rcases callAppOpen_calls_cases f e o w with h | h <;>
    simp [countCall, h, List.countP_append, List.countP_cons]

lemma callAppOpen_ok (f : Bool) (e : Env) (o : Oracle) (w : World)
    (h : o.failOpenSession = false) (ha : w.api.isSome = true) :
    (callApplicationOpenFn f e o w).2 = none := by
  obtain ⟨a, hae⟩ := Option.isSome_iff_exists.mp ha
  simp only [callApplicationOpenFn, pushCall, hae, h]
  repeat' split
  all_goals simp_all

lemma unsubBody_store (n : Bool) (o : Oracle) (w : World) :
    ((unsubscribeBody n o w).1).store = w.store := by
  simp only [unsubscribeBody, pushCall, pushEvent]
  repeat' split
  all_goals rfl

lemma unsubBody_ready (n : Bool) (o : Oracle) (w : World) :
    ((unsubscribeBody n o w).1).ready = w.ready := by
  simp only [unsubscribeBody, pushCall, pushEvent]
  repeat' split
  all_goals rfl

lemma unsubBody_regStatus (n : Bool) (o : Oracle) (w : World) :
    ((unsubscribeBody n o w).1).regStatus = w.regStatus := by
  simp only [unsubscribeBody, pushCall, pushEvent]
  repeat' split
  all_goals rfl

lemma unsubBody_events_false (o : Oracle) (w : World) :
    ((unsubscribeBody false o w).1).events = w.events := by
  simp only [unsubscribeBody, pushCall, pushEvent]
  repeat' split
  all_goals simp_all

lemma unsubBody_mem_events (n : Bool) (o : Oracle) (w : World) (v : Ev)
    (h : v ∈ w.events) : v ∈ ((unsubscribeBody n o w).1).events := by
  simp only [unsubscribeBody, pushCall, pushEvent]
  repeat' split
  all_goals simp_all

lemma unsubBody_calls_mem (n : Bool) (o : Oracle) (w : World) :
    ∀ c ∈ ((unsubscribeBody n o w).1).calls,
      c ∈ w.calls ∨ c = Call.driverUnsubscribe ∨ c = Call.unregisterDevice := by
  simp only [unsubscribeBody, pushCall, pushEvent]
  repeat' split
  all_goals intro c hc
  all_goals (try simp_all)
  all_goals tauto

lemma unsubBody_count_unsub (n : Bool) (o : Oracle) (w : World) :
    countCall (unsubscribeBody n o w).1 Call.driverUnsubscribe
      = countCall w Call.driverUnsubscribe + 1 := by
  simp only [unsubscribeBody]
  repeat' split
  all_goals simp [countCall_pushCall, countCall_pushEvent]

lemma issueOps_events (l : List InstallOp) (w : World) :
    (issueOps w l).events = w.events := by
  induction l generalizing w with
  | nil => rfl
  | cons op rest ih =>
    cases op <;> simp [issueOps, issueOp, pushCall] at ih ⊢ <;> exact ih _

lemma issueOps_ready (l : List InstallOp) (w : World) :
    (issueOps w l).ready = w.ready := by
  induction l generalizing w with
  | nil => rfl
  | cons op rest ih =>
    cases op <;> simp [issueOps, issueOp, pushCall] at ih ⊢ <;> exact ih _

lemma issueOps_regStatus (l : List InstallOp) (w : World) :
    (issueOps w l).regStatus = w.regStatus := by
  induction l generalizing w with
  | nil => rfl
  | cons op rest ih =>
    cases op <;> simp [issueOps, issueOp, pushCall] at ih ⊢ <;> exact ih _

lemma issueOp_count_unsub (w : World) (op : InstallOp) :
    countCall (issueOp w op) Call.driverUnsubscribe
      = countCall w Call.driverUnsubscribe := by
  cases op with
  | setSdk v => rfl
  | regDevice => simp [issueOp, countCall_pushCall]
  | tags pl => simp [issueOp, countCall_pushCall]
  | regUser => simp [issueOp, countCall_pushCall]

lemma issueOps_count_unsub (l : List InstallOp) (w : World) :
    countCall (issueOps w l) Call.driverUnsubscribe
      = countCall w Call.driverUnsubscribe := by
  induction l generalizing w with
  | nil => rfl
  | cons op rest ih =>
    rw [show issueOps w (op :: rest) = issueOps (issueOp w op) rest from rfl, ih,
      issueOp_count_unsub]

lemma installDev_regStatus (fl : Flags) (f : Option Bool) (e : Env) (o : Oracle)
    (w : World) : ((installDeviceFn fl f e o w).1).regStatus = w.regStatus := by
  simp only [installDeviceFn, pushEvent]
  repeat' split
  all_goals simp [issueOps_regStatus]

lemma installDev_count_unsub (fl : Flags) (f : Option Bool) (e : Env) (o : Oracle)
    (w : World) :
    countCall (installDeviceFn fl f e o w).1 Call.driverUnsubscribe
      = countCall w Call.driverUnsubscribe := by
  simp only [installDeviceFn]
  repeat' split
  all_goals first
    | rfl
    | simp only [countCall_pushEvent, issueOps_count_unsub]

lemma installDev_mem_events (fl : Flags) (f : Option Bool) (e : Env) (o : Oracle)
    (w : World) (v : Ev) (h : v ∈ w.events) :
    v ∈ ((installDeviceFn fl f e o w).1).events := by
  simp only [installDeviceFn, pushEvent]
  repeat' split
  all_goals simp_all [issueOps_events]

lemma needForced_events (e : Env) (pi : Permission) (w : World) :
    ((needForcedOpenFn e pi w).1).events = w.events := by
  simp only [needForcedOpenFn]
  split <;> rfl

lemma needForced_regStatus (e : Env) (pi : Permission) (w : World) :
    ((needForcedOpenFn e pi w).1).regStatus = w.regStatus := by
  simp only [needForcedOpenFn]
  split <;> rfl

lemma needForced_calls (e : Env) (pi : Permission) (w : World) :
    ((needForcedOpenFn e pi w).1).calls = w.calls := by
  simp only [needForcedOpenFn]
  split <;> rfl

lemma needForced_api (e : Env) (pi : Permission) (w : World) :
    ((needForcedOpenFn e pi w).1).api = w.api := by
  simp only [needForcedOpenFn]
  split <;> rfl

lemma countCall_set_regStatus (w : World) (r : Option RegStatus) (c : Call) :
    countCall { w with regStatus := r } c = countCall w c := rfl

/-- Call-trace growth by entries other than the transport unsubscribe call. -/
def callsGrow (w' w : World) : Prop :=
  ∃ cs, w'.calls = w.calls ++ cs ∧ Call.driverUnsubscribe ∉ cs

lemma callsGrow_of_eq {w' w : World} (h : w'.calls = w.calls) : callsGrow w' w :=
  ⟨[], by simp [h]⟩

lemma callsGrow_trans {w₃ w₂ w₁ : World} (h₁ : callsGrow w₂ w₁) (h₂ : callsGrow w₃ w₂) :
    callsGrow w₃ w₁ := by
  obtain ⟨a, ha, hna⟩ := h₁
  obtain ⟨b, hb, hnb⟩ := h₂
  refine ⟨a ++ b, ?_, ?_⟩
  · rw [hb, ha, List.append_assoc]
  · intro hm
    rcases List.mem_append.mp hm with h | h
    · exact hna h
    · exact hnb h

lemma countCall_of_grow {w' w : World} (h : callsGrow w' w) :
    countCall w' Call.driverUnsubscribe = countCall w Call.driverUnsubscribe := by
  obtain ⟨cs, h₁, h₂⟩ := h
  have hz : cs.countP (fun x => x == Call.driverUnsubscribe) = 0 := by
    refine List.countP_eq_zero.mpr (fun a ha => ?_)
    simp only [beq_iff_eq, decide_eq_true_eq]
    rintro rfl
    exact h₂ ha
  simp [countCall, h₁, List.countP_append, hz]

lemma issueOp_grow (w : World) (op : InstallOp) : callsGrow (issueOp w op) w := by
  cases op with
  | setSdk v => exact callsGrow_of_eq rfl
  | regDevice => exact ⟨[Call.registerDevice], rfl, by simp⟩
  | tags pl => exact ⟨[Call.setTags pl], rfl, by simp⟩
  | regUser => exact ⟨[Call.registerUser], rfl, by simp⟩

lemma issueOps_grow (l : List InstallOp) (w : World) : callsGrow (issueOps w l) w := by
  induction l generalizing w with
  | nil => exact callsGrow_of_eq rfl
  | cons op rest ih =>
    exact callsGrow_trans (issueOp_grow w op)
      (show callsGrow (issueOps (issueOp w op) rest) (issueOp w op) from ih _)

lemma installDev_grow (fl : Flags) (f : Option Bool) (e : Env) (o : Oracle)
    (w : World) : callsGrow ((installDeviceFn fl f e o w).1) w := by
  simp only [installDeviceFn]
  repeat' split
  all_goals first
    | exact callsGrow_of_eq rfl
    | exact issueOps_grow _ _
    | exact callsGrow_trans (issueOps_grow _ _) (issueOps_grow _ _)
    | exact callsGrow_trans (issueOps_grow _ _) (callsGrow_of_eq rfl)

lemma callAppOpen_grow (f : Bool) (e : Env) (o : Oracle) (w : World) :
    callsGrow ((callApplicationOpenFn f e o w).1) w := by
  rcases callAppOpen_calls_cases f e o w with h | h
  · exact callsGrow_of_eq h
  · exact ⟨[Call.openSession], h, by simp⟩

lemma finishProcess_grow (p : InitParams) (fl : Flags) (pi : Permission) (e : Env)
    (o : Oracle) (w : World) : callsGrow ((finishProcessFn p fl pi e o w).1) w := by
  have gX : callsGrow
      ((installDeviceFn { fl with needRegisterDevice := (initApiFn p e w).2 } none e o
        ((initApiFn p e w).1)).1) w :=
    callsGrow_trans (callsGrow_of_eq (initApiFn_calls p e w)) (installDev_grow _ _ _ _ _)
  have gN : callsGrow
      ((needForcedOpenFn e pi
        ((installDeviceFn { fl with needRegisterDevice := (initApiFn p e w).2 } none e o
          ((initApiFn p e w).1)).1)).1) w :=
    callsGrow_trans gX (callsGrow_of_eq (needForced_calls _ _ _))
  have gC : callsGrow
      ((callApplicationOpenFn true e o
        ((needForcedOpenFn e pi
          ((installDeviceFn { fl with needRegisterDevice := (initApiFn p e w).2 } none e o
            ((initApiFn p e w).1)).1)).1)).1) w :=
    callsGrow_trans gN (callAppOpen_grow _ _ _ _)
  simp only [finishProcessFn]
  repeat' split
  all_goals first
    | exact gX
    | exact gN
    | exact gC
    | exact callsGrow_trans gN (callsGrow_of_eq rfl)
    | exact callsGrow_trans gC (callsGrow_of_eq rfl)

lemma finishProcess_regStatus (p : InitParams) (fl : Flags) (pi : Permission) (e : Env)
    (o : Oracle) (w : World) :
    ((finishProcessFn p fl pi e o w).1).regStatus = w.regStatus := by
  simp only [finishProcessFn]
  repeat' split
  all_goals simp [installDev_regStatus, initApiFn_regStatus, needForced_regStatus,
    callAppOpen_regStatus, pushEvent]

lemma finishProcess_mem_events (p : InitParams) (fl : Flags) (pi : Permission) (e : Env)
    (o : Oracle) (w : World) (v : Ev) (h : v ∈ w.events) :
    v ∈ ((finishProcessFn p fl pi e o w).1).events := by
  have hv : v ∈ ((installDeviceFn { fl with needRegisterDevice := (initApiFn p e w).2 }
      none e o ((initApiFn p e w).1)).1).events :=
    installDev_mem_events _ _ _ _ _ v h
  simp only [finishProcessFn]
  repeat' split
  all_goals simp_all [pushEvent, callAppOpen_events, needForced_events]

lemma preBranch_events (p : InitParams) (fl : Flags) (e : Env) (o : Oracle) (w : World) :
    ((preBranchFn p fl e o w).1.1).events = w.events := by
  simp only [preBranchFn, unsubscribeOp]
  repeat' split
  all_goals simp [unsubBody_events_false, callAppOpen_events, initApiFn_events]

lemma preBranch_ready (p : InitParams) (fl : Flags) (e : Env) (o : Oracle) (w : World) :
    ((preBranchFn p fl e o w).1.1).ready = w.ready := by
  simp only [preBranchFn, unsubscribeOp]
  repeat' split
  all_goals simp [unsubBody_ready, callAppOpen_ready, initApiFn_ready]

lemma preBranch_regStatus (p : InitParams) (fl : Flags) (e : Env) (o : Oracle)
    (w : World) : ((preBranchFn p fl e o w).1.1).regStatus = w.regStatus := by
  simp only [preBranchFn, unsubscribeOp]
  repeat' split
  all_goals simp [unsubBody_regStatus, callAppOpen_regStatus, initApiFn_regStatus]

lemma preBranch_dataRemoved (p : InitParams) (fl : Flags) (e : Env) (o : Oracle)
    (w : World) :
    ((preBranchFn p fl e o w).1.1).store.dataRemoved = w.store.dataRemoved := by
  simp only [preBranchFn, unsubscribeOp]
  repeat' split
  all_goals simp [unsubBody_store, callAppOpen_dataRemoved, initApiFn_dataRemoved]

lemma preBranch_err (p : InitParams) (fl : Flags) (e : Env) (o : Oracle) (w : World)
    (hopen : o.failOpenSession = false) : (preBranchFn p fl e o w).2 = none := by
  have h := callAppOpen_ok false e o (initApiFn p e w).1 hopen
    (by rw [initApiFn_api]; rfl)
  simp only [preBranchFn, h]

lemma preBranch_calls_mem (p : InitParams) (fl : Flags) (e : Env) (o : Oracle)
    (w : World) :
    ∀ c ∈ ((preBranchFn p fl e o w).1.1).calls,
      c ∈ w.calls ∨ c = Call.openSession ∨ c = Call.driverUnsubscribe ∨
        c = Call.unregisterDevice := by
  have hA : ∀ c ∈ ((callApplicationOpenFn false e o (initApiFn p e w).1).1).calls,
      c ∈ w.calls ∨ c = Call.openSession := by
    intro c hc
    rcases callAppOpen_calls_cases false e o (initApiFn p e w).1 with h | h <;>
      rw [h, initApiFn_calls] at hc
    · exact Or.inl hc
    · rcases List.mem_append.mp hc with h₂ | h₂
      · exact Or.inl h₂
      · simp only [List.mem_singleton] at h₂
        exact Or.inr h₂
  intro c hc
  simp only [preBranchFn, unsubscribeOp] at hc
  split at hc
  · rcases hA c hc with h | h
    · exact Or.inl h
    · exact Or.inr (Or.inl h)
  · split at hc
    · -- resubscribe unsubscribe ran
      rcases unsubBody_calls_mem false o _ c hc with h₂ | h₂ | h₂
      · split at h₂
        · rcases unsubBody_calls_mem false o _ c h₂ with h₃ | h₃ | h₃
          · rcases hA c h₃ with h | h
            · exact Or.inl h
            · exact Or.inr (Or.inl h)
          · exact Or.inr (Or.inr (Or.inl h₃))
          · exact Or.inr (Or.inr (Or.inr h₃))
        · rcases hA c h₂ with h | h
          · exact Or.inl h
          · exact Or.inr (Or.inl h)
      · exact Or.inr (Or.inr (Or.inl h₂))
      · exact Or.inr (Or.inr (Or.inr h₂))
    · split at hc
      · rcases unsubBody_calls_mem false o _ c hc with h₂ | h₂ | h₂
        · rcases hA c h₂ with h | h
          · exact Or.inl h
          · exact Or.inr (Or.inl h)
        · exact Or.inr (Or.inr (Or.inl h₂))
        · exact Or.inr (Or.inr (Or.inr h₂))
      · rcases hA c hc with h | h
        · exact Or.inl h
        · exact Or.inr (Or.inl h)

lemma preBranch_count_unsub (p : InitParams) (fl : Flags) (e : Env) (o : Oracle)
    (w : World) (hforce : e.hasIsNeedUnsubscribe = false)
    (hresub : fl.needResubscribe = false) :
    countCall ((preBranchFn p fl e o w).1.1) Call.driverUnsubscribe
      = countCall w Call.driverUnsubscribe := by
  simp only [preBranchFn, hforce, hresub, Bool.false_and, Bool.false_eq_true, if_false]
  split
  · rw [callAppOpen_count_unsub]
    rfl
  · rw [callAppOpen_count_unsub]
    rfl

lemma permissionBranch_denied_events (p : InitParams) (fl : Flags) (e : Env)
    (o : Oracle) (w : World) :
    Ev.permissionDenied ∈ (permissionBranchFn p fl Permission.denied e o w).events := by
  simp only [permissionBranchFn, unsubscribeOp]
  split
  · exact unsubBody_mem_events true o _ Ev.permissionDenied (by simp [pushEvent])
  · simp [pushEvent]

lemma permissionBranch_denied_regStatus (p : InitParams) (fl : Flags) (e : Env)
    (o : Oracle) (w : World) :
    (permissionBranchFn p fl Permission.denied e o w).regStatus = none := rfl

lemma permissionBranch_denied_count (p : InitParams) (fl : Flags) (e : Env)
    (o : Oracle) (w : World) :
    countCall (permissionBranchFn p fl Permission.denied e o w) Call.driverUnsubscribe
      = countCall w Call.driverUnsubscribe
        + (if (!e.isSafari && (w.regStatus == some RegStatus.registered)) = true
           then 1 else 0) := by
  simp only [permissionBranchFn, unsubscribeOp]
  split
  · next hcond =>
    have hc : (!e.isSafari && (w.regStatus == some RegStatus.registered)) = true := hcond
    rw [if_pos hc, countCall_set_regStatus, unsubBody_count_unsub, countCall_pushEvent]
  · next hcond =>
    have hc : ¬(!e.isSafari && (w.regStatus == some RegStatus.registered)) = true := hcond
    rw [if_neg hc, countCall_set_regStatus, countCall_pushEvent]
    simp

/-- C8: for every InitConfig whose application identifier is absent (missing
or empty), init rejects with the configuration error before performing any
store write, transport instantiation, or backend call: the world is returned
unchanged. -/
theorem C8_init_rejects_missing_appcode (duid : String) (cfg : InitConfig) (e : Env)
    (o : Oracle) (w : World) (h : cfg.applicationCode = "") :
    initFn duid cfg e o w = (w, some Err.configError) := by
  simp [initFn, h]

/-- Witness for C8 at a concrete config with an empty application code. -/
theorem C8_witness :
    ({ cfgA with applicationCode := "" } : InitConfig).applicationCode = "" ∧
    initFn ("uid") { cfgA with applicationCode := "" } envA cleanOracle
        (mkWorld emptyStore none none) =
      (mkWorld emptyStore none none, some Err.configError) :=
  ⟨rfl, C8_init_rejects_missing_appcode ("uid") _ envA cleanOracle _ rfl⟩

/-- C3: when the persisted communication-enabled flag is exactly 0, subscribe
returns with no transport or backend call and no error, and installDevice
(given the API facade the install sequence requires) returns with no call, no
store write and no error, regardless of the diff flags and the force flag. -/
theorem C3_comm_disabled_suppresses_calls (fl : Flags) (permInit : Permission)
    (e : Env) (o : Oracle) (w : World) (force : Option Bool)
    (hc : w.store.commEnabled = some 0) (ha : w.api.isSome = true) :
    subscribeOp fl permInit e o w = (w, none) ∧
    installDeviceFn fl force e o w = (w, none) := by
  obtain ⟨a, hae⟩ := Option.isSome_iff_exists.mp ha
  constructor
  · simp [subscribeOp, commDisabled, hc]
  · simp [installDeviceFn, commDisabled, hc, hae]

/-- Witness for C3: all diff flags true, force requested, communication
stored as 0 — both operations return the world unchanged. -/
theorem C3_witness :
    ({ emptyStore with commEnabled := some 0 } : Store).commEnabled = some 0 ∧
    (mkWorld { emptyStore with commEnabled := some 0 } none (some apiA)).api.isSome = true ∧
    subscribeOp ⟨true, true, true, true⟩ Permission.granted envA cleanOracle
        (mkWorld { emptyStore with commEnabled := some 0 } none (some apiA)) =
      (mkWorld { emptyStore with commEnabled := some 0 } none (some apiA), none) ∧
    installDeviceFn ⟨true, true, true, true⟩ (some true) envA cleanOracle
        (mkWorld { emptyStore with commEnabled := some 0 } none (some apiA)) =
      (mkWorld { emptyStore with commEnabled := some 0 } none (some apiA), none) := by
  refine ⟨rfl, rfl, ?_⟩
  have h := C3_comm_disabled_suppresses_calls ⟨true, true, true, true⟩ Permission.granted
    envA cleanOracle (mkWorld { emptyStore with commEnabled := some 0 } none (some apiA))
    (some true) rfl rfl
  exact h

/-- C7: whatever transport or backend calls reject, the public subscribe and
unsubscribe operations return normally: no error escapes their catch. -/
theorem C7_subscribe_unsubscribe_never_throw (fl : Flags) (permInit : Permission)
    (e : Env) (o : Oracle) (w : World) (notify : Bool) :
    (subscribeOp fl permInit e o w).2 = none ∧
    (unsubscribeOp notify o w).2 = none := by
  constructor
  · unfold subscribeOp
    split <;> rfl
  · rfl

/-- C4 counterexample: the two tag mappings hold the same key-value pairs in
a different key order, so they are deeply equal, yet the needSetTags flag of
the source (a JSON.stringify comparison) computes to true — the claim demands
false for such a pair. -/
theorem C4_counterexample :
    tagsDeepEqual [(("A"), ("x")), (("B"), ("y"))] [(("B"), ("y")), (("A"), ("x"))] = true
    ∧ needSetTagsOf
        (some { applicationCode := "app1", userId := none
                tags := [(("A"), ("x")), (("B"), ("y"))], autoSubscribe := true })
        [(("B"), ("y")), (("A"), ("x"))] = true := by
  constructor
  · rfl
  · rfl

/-- C4 amended: needSetTags is true iff a previous init configuration is
persisted and the key-order-sensitive JSON serializations of the previous and
current tag mappings differ; equal pairs in a different key order therefore
count as changed. -/
theorem C4_needSetTags_is_serialization_diff (prev : Option InitParams)
    (cur : List (String × String)) :
    needSetTagsOf prev cur = true ↔
      ∃ p, prev = some p ∧ jsonStringify p.tags ≠ jsonStringify cur := by
  cases prev with
  | none => simp [needSetTagsOf]
  | some p => simp [needSetTagsOf, bne_iff_ne]

/-- C10: a userId equal to the default placeholder is deleted during
normalization: the run proceeds exactly as with no userId, needRegisterUser
is false against any previous userId, and the API facade parameters carry no
userId field. -/
theorem C10_default_user_id_deleted (duid : String) (e : Env) (cfg : InitConfig)
    (prevU : Option String) (h : cfg.userId = some duid) :
    normalizeParams duid e cfg = normalizeParams duid e { cfg with userId := none }
    ∧ (normalizeParams duid e cfg).userId = none
    ∧ needRegisterUserOf prevU (normalizeParams duid e cfg).userId = false
    ∧ (mkApiParams (normalizeParams duid e cfg) e).userId = none := by
  simp [normalizeParams, h, needRegisterUserOf, mkApiParams, truthyOptStr]

/-- Witness for C10 at a concrete config whose userId is the placeholder. -/
theorem C10_witness :
    ({ cfgA with userId := some "user_id" } : InitConfig).userId = some "user_id" ∧
    (normalizeParams ("user_id") envA { cfgA with userId := some "user_id" } =
      normalizeParams ("user_id") envA { cfgA with userId := none }
    ∧ (normalizeParams ("user_id") envA { cfgA with userId := some "user_id" }).userId = none
    ∧ needRegisterUserOf (some ("u2"))
        (normalizeParams ("user_id") envA { cfgA with userId := some "user_id" }).userId = false
    ∧ (mkApiParams (normalizeParams ("user_id") envA { cfgA with userId := some "user_id" })
        envA).userId = none) := by
  refine ⟨rfl, ?_⟩
  have h := C10_default_user_id_deleted ("user_id") envA
    { cfgA with userId := some "user_id" } (some ("u2")) rfl
  simpa using h

/-- C2: once a first startup run has completed — the normalized init params,
the driver API parameters and the current SDK version persisted — a second
run over the same config, environment and driver parameters computes all four
diff flags and the SDK-version force flag as false. -/
theorem C2_second_run_flags_false (duid : String) (cfg : InitConfig) (e : Env)
    (st : Store) (reg : Option RegStatus) (api : Option ApiParams)
    (h₁ : st.initParams = some (normalizeParams duid e cfg))
    (h₂ : st.apiParams = some e.driverApiParams)
    (h₃ : st.sdkVersion = some e.sdkVersion) :
    needResubscribeOf st.initParams cfg.applicationCode = false
    ∧ needRegisterUserOf (st.initParams.bind (fun q => q.userId))
        (normalizeParams duid e cfg).userId = false
    ∧ needSetTagsOf st.initParams (normalizeParams duid e cfg).tags = false
    ∧ (initApiFn (normalizeParams duid e cfg) e (mkWorld st reg api)).2 = false
    ∧ isNewVersionOf st e = false := by
  refine ⟨?_, ?_, ?_, ?_, ?_⟩
  · simp [needResubscribeOf, h₁, normalizeParams]
  · simp [needRegisterUserOf, h₁]
  · simp [needSetTagsOf, h₁]
  · simp [initApiFn, needRegisterDeviceOf, mkWorld, h₂]
  · simp [isNewVersionOf, h₃]

/-- Witness for C2 at a concrete config and environment, with the store
holding exactly what the first run persisted. -/
theorem C2_witness :
    ({ emptyStore with
        initParams := some (normalizeParams ("user_id") envA cfgA)
        apiParams := some envA.driverApiParams
        sdkVersion := some envA.sdkVersion } : Store).initParams
      = some (normalizeParams ("user_id") envA cfgA) ∧
    (needResubscribeOf
        ({ emptyStore with
            initParams := some (normalizeParams ("user_id") envA cfgA)
            apiParams := some envA.driverApiParams
            sdkVersion := some envA.sdkVersion } : Store).initParams
        cfgA.applicationCode = false
    ∧ needRegisterUserOf
        (({ emptyStore with
            initParams := some (normalizeParams ("user_id") envA cfgA)
            apiParams := some envA.driverApiParams
            sdkVersion := some envA.sdkVersion } : Store).initParams.bind
          (fun q => q.userId))
        (normalizeParams ("user_id") envA cfgA).userId = false
    ∧ needSetTagsOf
        ({ emptyStore with
            initParams := some (normalizeParams ("user_id") envA cfgA)
            apiParams := some envA.driverApiParams
            sdkVersion := some envA.sdkVersion } : Store).initParams
        (normalizeParams ("user_id") envA cfgA).tags = false
    ∧ (initApiFn (normalizeParams ("user_id") envA cfgA) envA
        (mkWorld
          { emptyStore with
              initParams := some (normalizeParams ("user_id") envA cfgA)
              apiParams := some envA.driverApiParams
              sdkVersion := some envA.sdkVersion } none none)).2 = false
    ∧ isNewVersionOf
        { emptyStore with
            initParams := some (normalizeParams ("user_id") envA cfgA)
            apiParams := some envA.driverApiParams
            sdkVersion := some envA.sdkVersion } envA = false) :=
  ⟨rfl, C2_second_run_flags_false ("user_id") cfgA envA _ none none rfl rfl rfl⟩

/-- C1: at the failing input the install sequence selects exactly the
registerDevice call, yet the fan-in of line 542 — Promise.all over a
single-element array wrapping the methods list — awaits no selected call,
does not observe the registerDevice rejection, and installDevice still
returns normally and emits the register event. -/
theorem C1_fanin_awaits_no_selected_call :
    installationMethodsOf flagsRegDev none envA stC1 = [InstallOp.regDevice]
    ∧ promiseAllAwaits
        [PromItem.arr ((installationMethodsOf flagsRegDev none envA stC1).map
          PromItem.call)] = []
    ∧ opFails oC1 InstallOp.regDevice = true
    ∧ promiseAllRejects (opFails oC1)
        [PromItem.arr ((installationMethodsOf flagsRegDev none envA stC1).map
          PromItem.call)] = false
    ∧ installDeviceFn flagsRegDev none envA oC1 (mkWorld stC1 none (some apiA)) =
        (pushEvent (pushCall (mkWorld stC1 none (some apiA)) Call.registerDevice)
          Ev.register, none) := by
  refine ⟨?_, rfl, rfl, rfl, ?_⟩ <;> rfl

/-- C9: with the API facade present and no rejection, removeAllDeviceData
issues getTags, posts the deletion event, clears exactly the fetched tag keys
to null together with the device de-registration, and then persists the
tombstone flag as the truthy value 1. -/
theorem C9_remove_all_device_data (tagsResult : List (String × String)) (o : Oracle)
    (w : World) (ha : w.api.isSome = true)
    (h₁ : o.failGetTags = false) (h₂ : o.failPostEvent = false)
    (h₃ : o.failSetTags = false) (h₄ : o.failUnregisterDevice = false) :
    removeAllDeviceDataFn tagsResult o w =
      ({ w with
          calls := w.calls ++
            [Call.getTags, Call.postEvent gdprDeleteName,
             Call.setTags (tagsResult.map (fun q => (q.1, none))),
             Call.unregisterDevice]
          store := { w.store with dataRemoved := some 1 } }, none)
    ∧ (tagsResult.map (fun q => (q.1, (none : Option String)))).map Prod.fst
        = tagsResult.map Prod.fst
    ∧ (∀ q ∈ tagsResult.map (fun q => (q.1, (none : Option String))), q.2 = none)
    ∧ truthyOptInt (some 1) = true := by
  obtain ⟨a, hae⟩ := Option.isSome_iff_exists.mp ha
  refine ⟨?_, ?_, ?_, rfl⟩
  · simp [removeAllDeviceDataFn, hae, h₁, h₂, h₃, h₄, pushCall]
  · simp
  · intro q hq
    obtain ⟨r, _, hr⟩ := List.mem_map.mp hq
    exact congrArg Prod.snd hr.symm

/-- Witness for C9 on the spec scenario tags (A maps to x, B maps to y). -/
theorem C9_witness :
    (mkWorld stC1 none (some apiA)).api.isSome = true ∧
    removeAllDeviceDataFn [(("A"), ("x")), (("B"), ("y"))] cleanOracle
        (mkWorld stC1 none (some apiA)) =
      ({ mkWorld stC1 none (some apiA) with
          calls := (mkWorld stC1 none (some apiA)).calls ++
            [Call.getTags, Call.postEvent gdprDeleteName,
             Call.setTags ([(("A"), ("x")), (("B"), ("y"))].map (fun q => (q.1, none))),
             Call.unregisterDevice]
          store := { (mkWorld stC1 none (some apiA)).store with dataRemoved := some 1 } },
       none) :=
  ⟨rfl,
    (C9_remove_all_device_data [(("A"), ("x")), (("B"), ("y"))] cleanOracle
      (mkWorld stC1 none (some apiA)) rfl rfl rfl rfl rfl).1⟩

/-- C6: with the device-data-removed tombstone set, the startup sequence
stops at the tombstone check: it emits no event at all (in particular never
ready), leaves the ready flag false, and issues no backend registration, tag,
user or session call after the check — the only calls possibly issued are the
pre-check appOpen session call and the pre-check silent unsubscribe pair. -/
theorem C6_tombstone_halts (p : InitParams) (fl : Flags) (e : Env) (o : Oracle)
    (st : Store) (reg : Option RegStatus) (api : Option ApiParams)
    (ht : truthyOptInt st.dataRemoved = true) :
    ((defaultProcessFn p fl e o (mkWorld st reg api)).1).events = []
    ∧ ((defaultProcessFn p fl e o (mkWorld st reg api)).1).ready = false
    ∧ ∀ c ∈ ((defaultProcessFn p fl e o (mkWorld st reg api)).1).calls,
        c = Call.openSession ∨ c = Call.driverUnsubscribe ∨
          c = Call.unregisterDevice := by
  have hS₁ : ((preBranchFn p fl e o (mkWorld st reg api)).1.1).events = [] := by
    rw [preBranch_events]
    exact rfl
  have hS₂ : ((preBranchFn p fl e o (mkWorld st reg api)).1.1).ready = false := by
    rw [preBranch_ready]
    exact rfl
  have hS₃ : ∀ c ∈ ((preBranchFn p fl e o (mkWorld st reg api)).1.1).calls,
      c = Call.openSession ∨ c = Call.driverUnsubscribe ∨
        c = Call.unregisterDevice := by
    intro c hc
    rcases preBranch_calls_mem p fl e o (mkWorld st reg api) c hc with h | h | h | h
    · simp [mkWorld] at h
    · exact Or.inl h
    · exact Or.inr (Or.inl h)
    · exact Or.inr (Or.inr h)
  have hd : truthyOptInt
      (((preBranchFn p fl e o (mkWorld st reg api)).1.1).store.dataRemoved) = true := by
    rw [preBranch_dataRemoved]
    exact ht
  simp only [defaultProcessFn]
  split
  · exact ⟨hS₁, hS₂, hS₃⟩
  · rw [if_pos hd]
    exact ⟨hS₁, hS₂, hS₃⟩

/-- Witness for C6: a tombstoned store on a registered device. -/
theorem C6_witness :
    truthyOptInt ({ emptyStore with dataRemoved := some 1 } : Store).dataRemoved = true ∧
    (((defaultProcessFn pA ⟨false, false, false, false⟩ envA cleanOracle
        (mkWorld { emptyStore with dataRemoved := some 1 }
          (some RegStatus.registered) none)).1).events = []
    ∧ ((defaultProcessFn pA ⟨false, false, false, false⟩ envA cleanOracle
        (mkWorld { emptyStore with dataRemoved := some 1 }
          (some RegStatus.registered) none)).1).ready = false
    ∧ ∀ c ∈ ((defaultProcessFn pA ⟨false, false, false, false⟩ envA cleanOracle
        (mkWorld { emptyStore with dataRemoved := some 1 }
          (some RegStatus.registered) none)).1).calls,
        c = Call.openSession ∨ c = Call.driverUnsubscribe ∨
          c = Call.unregisterDevice) :=
  ⟨rfl, C6_tombstone_halts pA ⟨false, false, false, false⟩ envA cleanOracle
    { emptyStore with dataRemoved := some 1 } (some RegStatus.registered) none rfl⟩

/-- C5 counterexample: on the Safari transport, with the live permission
denied and the device marked registered, the startup emits permissionDenied
but issues zero unsubscribe calls — the claim demands exactly one. -/
theorem C5_counterexample :
    eC5.permission = Permission.denied
    ∧ (mkWorld emptyStore (some RegStatus.registered) none).regStatus
        = some RegStatus.registered
    ∧ Ev.permissionDenied ∈ ((defaultProcessFn pA ⟨false, false, false, false⟩ eC5
        cleanOracle (mkWorld emptyStore (some RegStatus.registered) none)).1).events
    ∧ countCall (defaultProcessFn pA ⟨false, false, false, false⟩ eC5 cleanOracle
        (mkWorld emptyStore (some RegStatus.registered) none)).1
        Call.driverUnsubscribe = 0 := by
  refine ⟨rfl, rfl, ?_, ?_⟩ <;> decide

/-- C5 amended: for every startup reaching the permission branch with the
live permission denied (tombstone unset, the initial session-open call not
rejected, no transport force-unsubscribe signal, needResubscribe false), the
orchestrator emits permissionDenied and clears the registration-status flag;
exactly one unsubscribe is issued when the device was marked registered and
the transport is not the Safari variant, and none otherwise. -/
theorem C5_denied_clears_and_unsubscribes (p : InitParams) (fl : Flags) (e : Env)
    (o : Oracle) (st : Store) (reg : Option RegStatus) (api : Option ApiParams)
    (hperm : e.permission = Permission.denied)
    (htomb : truthyOptInt st.dataRemoved = false)
    (hopen : o.failOpenSession = false)
    (hforce : e.hasIsNeedUnsubscribe = false)
    (hresub : fl.needResubscribe = false) :
    Ev.permissionDenied ∈ ((defaultProcessFn p fl e o (mkWorld st reg api)).1).events
    ∧ ((defaultProcessFn p fl e o (mkWorld st reg api)).1).regStatus = none
    ∧ countCall (defaultProcessFn p fl e o (mkWorld st reg api)).1
        Call.driverUnsubscribe
        = (if (!e.isSafari && (reg == some RegStatus.registered)) = true
           then 1 else 0) := by
  have hpb : (preBranchFn p fl e o (mkWorld st reg api)).2 = none :=
    preBranch_err p fl e o _ hopen
  have hd : truthyOptInt
      (((preBranchFn p fl e o (mkWorld st reg api)).1.1).store.dataRemoved) = false := by
    rw [preBranch_dataRemoved]
    exact htomb
  simp only [defaultProcessFn, hpb]
  rw [if_neg (by simp [hd])]
  rw [hperm]
  refine ⟨?_, ?_, ?_⟩
  · exact finishProcess_mem_events _ _ _ _ _ _ Ev.permissionDenied
      (permissionBranch_denied_events _ _ _ _ _)
  · rw [finishProcess_regStatus, permissionBranch_denied_regStatus]
  · rw [countCall_of_grow (finishProcess_grow _ _ _ _ _ _),
      permissionBranch_denied_count,
      preBranch_count_unsub p fl e o _ hforce hresub,
      preBranch_regStatus]
    simp [mkWorld, countCall]

/-- Witness for C5 amended: non-Safari transport, permission denied, device
registered — exactly one unsubscribe. -/
theorem C5_witness :
    ({ envA with permission := Permission.denied } : Env).permission
        = Permission.denied ∧
    truthyOptInt emptyStore.dataRemoved = false ∧
    cleanOracle.failOpenSession = false ∧
    ({ envA with permission := Permission.denied } : Env).hasIsNeedUnsubscribe = false ∧
    (⟨false, false, false, false⟩ : Flags).needResubscribe = false ∧
    (Ev.permissionDenied ∈ ((defaultProcessFn pA ⟨false, false, false, false⟩
        { envA with permission := Permission.denied } cleanOracle
        (mkWorld emptyStore (some RegStatus.registered) none)).1).events
    ∧ ((defaultProcessFn pA ⟨false, false, false, false⟩
        { envA with permission := Permission.denied } cleanOracle
        (mkWorld emptyStore (some RegStatus.registered) none)).1).regStatus = none
    ∧ countCall (defaultProcessFn pA ⟨false, false, false, false⟩
        { envA with permission := Permission.denied } cleanOracle
        (mkWorld emptyStore (some RegStatus.registered) none)).1
        Call.driverUnsubscribe
        = (if (!({ envA with permission := Permission.denied } : Env).isSafari &&
              ((some RegStatus.registered : Option RegStatus)
                == some RegStatus.registered)) = true
           then 1 else 0)) :=
  ⟨rfl, rfl, rfl, rfl, rfl,
    C5_denied_clears_and_unsubscribes pA ⟨false, false, false, false⟩
      { envA with permission := Permission.denied } cleanOracle emptyStore
      (some RegStatus.registered) none rfl rfl rfl rfl rfl⟩

end PW
